import Mathlib

/-!
Verification of `src/app/render/backend/opengl/openglproxy.cpp` (Olive's
OpenGL render proxy) against its natural-language specification.

The file shallowly embeds the proxy's operations: the shader-cache
lookup/compile step of `RunNodeAccelerated` (lines 194-217), the
destination-texture allocation and iteration loop (lines 219-227, 388-416),
the texture-unit release loop (lines 419-427), `Close` (lines 178-186),
the aspect-ratio correction inside `FrameToValue` (lines 126-143), the
accurate-color-path ordering of `FrameToValue` (lines 89-116), and
`TextureToBuffer` (lines 432-490).  GPU-side effects are embedded as
explicit event traces; machine arithmetic that matters (rounding of
aspect-ratio scaling) is embedded over `ℚ` with Mathlib's `round`.
-/

namespace OpenGLProxy

/-! ## Shader cache (RunNodeAccelerated lines 194-217) -/

/-- A compiled shader program.  `sid` is the allocation identity of the
`OpenGLShader::Create()` instance; `fragOk`/`vertOk` record the (ignored by
the source) boolean results of `addShaderFromSourceCode`, and `linkOk` the
result of `link()`. -/
structure GLShader where
  sid : Nat
  fragSrc : String
  vertSrc : String
  fragOk : Bool
  vertOk : Bool
  linkOk : Bool
deriving DecidableEq

/-- External GL compile behaviour: whether a given source text compiles.
The proxy never inspects these results; they are carried so that theorems
can talk about failed programs. -/
structure ShaderEnv where
  fragCompiles : String → Bool
  vertCompiles : String → Bool

/-- A graph node as seen by `RunNodeAccelerated`: its stable identity
`node->id()`, its content shader identity `node->ShaderID(input_params)`
(for the fixed input bindings of the call), and its generated sources. -/
structure RNode where
  nid : String
  shaderID : String
  fragCode : String
  vertCode : String
deriving DecidableEq

/-- State of `shader_cache_` plus instrumentation: `fresh` is the next
program allocation id, `compiles` counts executed compile+link sequences. -/
structure SCState where
  cache : List (String × GLShader)
  fresh : Nat
  compiles : Nat
deriving DecidableEq

/-- `QHash::value`: first binding for the key, if any. -/
def lookupCache (c : List (String × GLShader)) (k : String) : Option GLShader :=
  match c with
  | [] => none
  | (k', v) :: rest => if k' = k then some v else lookupCache rest k

/-- Model of `OpenGLShader::CodeDefaultFragment()` (external constant). -/
def codeDefaultFragment : String := "CodeDefaultFragment"

/-- Model of `OpenGLShader::CodeDefaultVertex()` (external constant). -/
def codeDefaultVertex : String := "CodeDefaultVertex"

/-- Lines 194-217 of `RunNodeAccelerated`: look the shader up in
`shader_cache_` under `node->ShaderID(input_params)`; on miss, default
empty fragment/vertex sources, create and compile+link a new program
(ignoring the compile/link results), and insert it into the cache under
`node->id()`.  Note the lookup key and the insert key differ, exactly as
in the source. -/
def getOrCompileShader (env : ShaderEnv) (node : RNode) (s : SCState) :
    GLShader × SCState :=
  match lookupCache s.cache node.shaderID with
  | some sh => (sh, s)
  | none =>
    let frag := if node.fragCode = "" then codeDefaultFragment else node.fragCode
    let vert := if node.vertCode = "" then codeDefaultVertex else node.vertCode
    let fOk := env.fragCompiles frag
    let vOk := env.vertCompiles vert
    let sh : GLShader :=
      { sid := s.fresh, fragSrc := frag, vertSrc := vert,
        fragOk := fOk, vertOk := vOk, linkOk := fOk && vOk }
    (sh, { cache := (node.nid, sh) :: s.cache,
           fresh := s.fresh + 1,
           compiles := s.compiles + 1 })

/-- The empty shader cache with instrumentation zeroed. -/
def sc0 : SCState := ⟨[], 0, 0⟩

/-- An environment in which every source compiles except the literal
source text "BAD". -/
def envBad : ShaderEnv :=
  ⟨fun s => decide (s ≠ "BAD"), fun _ => true⟩

/-- A node whose content shader identity differs from its stable id, as
happens for any node whose generated source depends on its input bindings
(the spec derives the shader identity from "declared shader source plus
its current input bindings", while `node->id()` is the stable identity). -/
def nodeKeyed : RNode := ⟨"blur", "blur:radius=2", "F", "V"⟩

/-- A node whose fragment source fails to compile. -/
def nodeBad : RNode := ⟨"badnode", "badnode", "BAD", "V"⟩

/-! ## RunNodeAccelerated draw phase (lines 219-227, 230-427) -/

/-- What a texture unit can be bound to: the empty texture (GL id 0), the
texture resolved for the i-th texture-kind input, or destination texture
`dst_refs[j]`. -/
inductive TexRef where
  | empty : TexRef
  | inputTex (i : Nat) : TexRef
  | dst (j : Nat) : TexRef
deriving DecidableEq

/-- GPU-side events issued by `RunNodeAccelerated`, in program order. -/
inductive GLEvent where
  | allocDst (j : Nat) : GLEvent
  | bindTex (unit : Nat) (t : TexRef) : GLEvent
  | drawTo (j : Nat) : GLEvent
  | releaseShader : GLEvent
deriving DecidableEq

/-- Number of destination textures obtained from the texture cache
(lines 220-227): one unconditionally, a second iff
`ShaderIterations() > 1 && ShaderIterativeInput()`. -/
def allocCount (its : Nat) (hasIter : Bool) : Nat :=
  if 1 < its ∧ hasIter = true then 2 else 1

/-- Destination-texture allocation events (lines 220-227). -/
def allocPhase (its : Nat) (hasIter : Bool) : List GLEvent :=
  [.allocDst 0] ++ (if 1 < its ∧ hasIter = true then [.allocDst 1] else [])

/-- Input resolution (lines 234-364): each texture/buffer/footage input
with a live uniform location is bound to the next texture unit, units
assigned in order starting at 0; `n` is the number of such inputs
(`input_texture_count` after the loop). -/
def resolvePhase (n : Nat) : List GLEvent :=
  (List.range n).map (fun i => .bindTex i (.inputTex i))

/-- Body of one loop iteration (lines 390-416): for `iteration > 0`,
rebind the remembered iterative-input unit to
`dst_refs[(iteration+1) % dst_refs.size()]`, then attach
`dst_refs[iteration % dst_refs.size()]` and blit through the shader. -/
def iterBody (d u i : Nat) : List GLEvent :=
  (if 0 < i then [.bindTex u (.dst ((i + 1) % d))] else []) ++ [.drawTo (i % d)]

/-- The iteration loop (lines 390-416) for `its` iterations over `d`
destination textures with iterative-input unit `u`. -/
def iterPhase (its d u : Nat) : List GLEvent :=
  ((List.range its).map (iterBody d u)).flatten

/-- The release loop (lines 419-425): while `input_texture_count > 0`,
decrement and rebind that unit to texture 0. -/
def releasePhase : Nat → List GLEvent
  | 0 => []
  | n + 1 => .bindTex n .empty :: releasePhase n

/-- `output_tex` after the loop: assigned to the iteration's destination
on every pass, so the last iteration's destination, and null when the
loop body never ran. -/
def loopOutput (its d : Nat) : Option Nat :=
  (List.range its).foldl (fun _ i => some (i % d)) none

/-- Complete GPU event trace of one `RunNodeAccelerated` call:
destination allocation, input resolution, the iteration loop, the
texture-unit release loop, and the final `shader->release()`. -/
def runTrace (n its u : Nat) (hasIter : Bool) : List GLEvent :=
  allocPhase its hasIter ++ resolvePhase n ++
  iterPhase its (allocCount its hasIter) u ++
  releasePhase n ++ [.releaseShader]

/-- Result of a `RunNodeAccelerated` call.  The C++ function returns
`void`; its only outputs are the updated shader cache and the value pushed
to `output_params` — always of type `NodeParam::kTexture`, with no error
channel. -/
structure RunResult where
  state : SCState
  events : List GLEvent
  pushedTex : Option Nat
deriving DecidableEq

/-- Whole-call model of `RunNodeAccelerated`: fetch (or compile) the
shader, then run the draw phases and push the last destination texture. -/
def runNodeAccelerated (env : ShaderEnv) (node : RNode) (s : SCState)
    (n its u : Nat) (hasIter : Bool) : RunResult :=
  let fs := getOrCompileShader env node s
  { state := fs.2,
    events := runTrace n its u hasIter,
    pushedTex := loopOutput its (allocCount its hasIter) }

/-- Destinations of the draw calls in a trace, in order. -/
def drawDests (tr : List GLEvent) : List Nat :=
  tr.filterMap (fun e => match e with | .drawTo j => some j | _ => none)

/-- Destination-allocation indices in a trace, in order. -/
def allocDsts (tr : List GLEvent) : List Nat :=
  tr.filterMap (fun e => match e with | .allocDst j => some j | _ => none)

/-- Units rebound to the empty texture in a trace, in order. -/
def emptyRebinds (tr : List GLEvent) : List Nat :=
  tr.filterMap (fun e =>
    match e with | .bindTex u .empty => some u | _ => none)

/-- Units bound (to anything) in a trace, in order. -/
def bindUnits (tr : List GLEvent) : List Nat :=
  tr.filterMap (fun e => match e with | .bindTex u _ => some u | _ => none)

/-- The sequence of textures bound on unit `j` in a trace. -/
def bindsOn (j : Nat) (tr : List GLEvent) : List TexRef :=
  tr.filterMap (fun e =>
    match e with
    | .bindTex u t => if u = j then some t else none
    | _ => none)

/-- The last texture bound on unit `j` in a trace, if any. -/
def lastBind (j : Nat) (tr : List GLEvent) : Option TexRef :=
  (bindsOn j tr).getLast?

/-- The iteration-loop trace as the specification describes ping-pong
execution: iteration `i` draws into `dst[i % 2]`, and every iteration
`i > 0` first rebinds the feedback unit to `dst[(i+1) % 2]`. -/
def pingPongSpecTrace (its u : Nat) : List GLEvent :=
  ((List.range its).map (fun i =>
    (if 0 < i then [GLEvent.bindTex u (.dst ((i + 1) % 2))] else []) ++
    [GLEvent.drawTo (i % 2)])).flatten

/-! ## Close (lines 178-186) -/

/-- The proxy's member state touched by `Close`: `shader_cache_`,
`texture_cache_` (a pool of texture entries), `color_cache_`, the
framebuffer `buffer_`, `copy_pipeline_`, `functions_` and `ctx_`. -/
structure ProxyState where
  shaderCache : List (String × GLShader)
  textureCache : List Nat
  colorCache : List (String × Nat)
  bufferCreated : Bool
  copyPipeline : Option Nat
  functionsSet : Bool
  ctx : Option Nat
deriving DecidableEq

/-- `OpenGLProxy::Close` (lines 178-186): clears `shader_cache_`,
destroys `buffer_`, nulls `copy_pipeline_` and `functions_`, deletes and
nulls `ctx_`.  It does not touch `texture_cache_` or `color_cache_`. -/
def Close (s : ProxyState) : ProxyState :=
  { s with shaderCache := [],
           bufferCreated := false,
           copyPipeline := none,
           functionsSet := false,
           ctx := none }

/-- A proxy state with a live context and one pooled texture in the
texture cache. -/
def proxyLive : ProxyState :=
  { shaderCache := [],
    textureCache := [7],
    colorCache := [],
    bufferCreated := true,
    copyPipeline := some 1,
    functionsSet := true,
    ctx := some 3 }

/-! ## Aspect-ratio correction (FrameToValue lines 126-143) -/

/-- Lines 126-143 of `FrameToValue`: if the frame's sample aspect ratio is
neither 1 nor 0, widen (`new_width = qRound(width * sar)`) when `sar > 1`,
otherwise heighten (`new_height = qRound(height / sar)`).  `qRound` on a
non-negative value is round-half-up, Mathlib's `round`. -/
def aspectCorrect (w h : Nat) (sar : ℚ) : ℤ × ℤ :=
  if sar ≠ 1 ∧ sar ≠ 0 then
    if 1 < sar then (round ((w : ℚ) * sar), (h : ℤ))
    else ((w : ℤ), round ((h : ℚ) / sar))
  else ((w : ℤ), (h : ℤ))

/-! ## Accurate color path (FrameToValue lines 89-116) -/

/-- The OCIO method chosen by `ColorManager::GetOCIOMethodForMode(mode)`
(external to this file). -/
inductive OCIOMethod where
  | accurate : OCIOMethod
  | fast : OCIOMethod
deriving DecidableEq

/-- CPU/GPU operations `FrameToValue` applies to the frame, in order. -/
inductive FrameOp where
  | convertToFloatFormat (hasAlpha : Bool) : FrameOp
  | disassociateAlpha : FrameOp
  | cpuColorTransform : FrameOp
  | reassociateAlpha : FrameOp
  | associateAlpha : FrameOp
  | uploadFrameToTexture : FrameOp
  | gpuColorBlit : FrameOp
deriving DecidableEq

/-- Ordered operation list of `FrameToValue` (lines 89-168): on the
accurate path, convert the frame to RGBA32F/RGB32F, disassociate alpha if
the frame has alpha and the stream is premultiplied, run the processor's
CPU transform, then reassociate (premultiplied) or associate alpha;
afterwards the frame is uploaded via `texture_cache_.Get(ctx_, frame)`;
the fast path blits through the OCIO shader after the upload. -/
def frameToValueOps (m : OCIOMethod) (hasAlpha premult : Bool) : List FrameOp :=
  (if m = .accurate then
    [.convertToFloatFormat hasAlpha] ++
    (if hasAlpha && premult then [.disassociateAlpha] else []) ++
    [.cpuColorTransform] ++
    (if hasAlpha then
      (if premult then [.reassociateAlpha] else [.associateAlpha])
     else [])
   else []) ++
  [.uploadFrameToTexture] ++
  (if m = .fast then [.gpuColorBlit] else [])

/-! ## TextureToBuffer (lines 432-490) -/

/-- The texture handle passed to `TextureToBuffer`: GL id and pixel
dimensions. -/
structure DLTexture where
  texId : Nat
  width : Nat
  height : Nat
deriving DecidableEq

/-- The destination CPU frame: dimensions, row stride in pixels, and its
byte buffer (abstracted as a list). -/
structure DLFrame where
  width : Nat
  height : Nat
  linesizePixels : Nat
  data : List Nat
deriving DecidableEq

/-- GPU calls issued by `TextureToBuffer`, in program order. -/
inductive DLEvent where
  | viewport (w h : Nat) : DLEvent
  | allocTexture (w h : Nat) (newId : Nat) : DLEvent
  | blitCopyPipeline (matrix : Nat) (srcId dstId : Nat) : DLEvent
  | packRowLength (v : Nat) : DLEvent
  | readPixels (srcId : Nat) (w h : Nat) : DLEvent
deriving DecidableEq

/-- `OpenGLProxy::TextureToBuffer` (lines 432-490).  `pixels` is the GPU
state (texture id to readable pixel bytes), `freshId` the id the texture
cache would hand out for a new allocation, `matrix` an opaque handle for
the transform matrix.  A null texture returns immediately.  Otherwise set
the viewport; if the frame's dimensions differ from the texture's,
allocate a texture at the frame's `video_params()` and blit into it with
`copy_pipeline_` applying `matrix`, then read that texture back; else read
the source texture directly.  Readback sets the pack row length to the
frame's line size, reads into the frame's buffer, and resets the row
length to 0. -/
def textureToBuffer (pixels : Nat → List Nat) (texIn : Option DLTexture)
    (frame : DLFrame) (matrix : Nat) (freshId : Nat) :
    List DLEvent × DLFrame :=
  match texIn with
  | none => ([], frame)
  | some tex =>
    let dlId := if frame.width ≠ tex.width ∨ frame.height ≠ tex.height
                then freshId else tex.texId
    ([DLEvent.viewport frame.width frame.height] ++
     (if frame.width ≠ tex.width ∨ frame.height ≠ tex.height then
       [DLEvent.allocTexture frame.width frame.height freshId,
        DLEvent.blitCopyPipeline matrix tex.texId freshId]
      else []) ++
     [DLEvent.packRowLength frame.linesizePixels,
      DLEvent.readPixels dlId frame.width frame.height,
      DLEvent.packRowLength 0],
     { frame with data := pixels dlId })

/-- Read sources among a download trace's `readPixels` events. -/
def readSrcs (tr : List DLEvent) : List Nat :=
  tr.filterMap (fun e => match e with | .readPixels s _ _ => some s | _ => none)

/-! ## Trace lemmas -/

theorem iterPhase_succ (its d u : Nat) :
    iterPhase (its + 1) d u = iterPhase its d u ++ iterBody d u its := by
  simp [iterPhase, List.range_succ]

theorem drawDests_append (a b : List GLEvent) :
    drawDests (a ++ b) = drawDests a ++ drawDests b := by
  simp [drawDests]

theorem allocDsts_append (a b : List GLEvent) :
    allocDsts (a ++ b) = allocDsts a ++ allocDsts b := by
  simp [allocDsts]

theorem emptyRebinds_append (a b : List GLEvent) :
    emptyRebinds (a ++ b) = emptyRebinds a ++ emptyRebinds b := by
  simp [emptyRebinds]

theorem bindsOn_append (j : Nat) (a b : List GLEvent) :
    bindsOn j (a ++ b) = bindsOn j a ++ bindsOn j b := by
  simp [bindsOn]

theorem drawDests_iterBody (d u i : Nat) :
    drawDests (iterBody d u i) = [i % d] := by
  by_cases h : 0 < i <;> simp [iterBody, drawDests, h]

theorem drawDests_iterPhase (its d u : Nat) :
    drawDests (iterPhase its d u) = (List.range its).map (· % d) := by
  induction its with
  | zero => rfl
  | succ k ih =>
    rw [iterPhase_succ, drawDests_append, ih, drawDests_iterBody,
      List.range_succ]
    simp

theorem drawDests_allocPhase (its : Nat) (hi : Bool) :
    drawDests (allocPhase its hi) = [] := by
  by_cases h : 1 < its ∧ hi = true <;> simp [allocPhase, drawDests, h]

theorem drawDests_resolvePhase (n : Nat) :
    drawDests (resolvePhase n) = [] := by
  simp [resolvePhase, drawDests, List.filterMap_map]

theorem drawDests_releasePhase (n : Nat) :
    drawDests (releasePhase n) = [] := by
  induction n with
  | zero => rfl
  | succ k ih => simp [releasePhase, drawDests] at ih ⊢; exact ih

theorem allocDsts_allocPhase_two (its : Nat) (h : 1 < its) :
    allocDsts (allocPhase its true) = [0, 1] := by
  simp [allocPhase, allocDsts, h]

theorem allocDsts_allocPhase_one (its : Nat) :
    allocDsts (allocPhase its false) = [0] := by
  simp [allocPhase, allocDsts]

theorem allocDsts_resolvePhase (n : Nat) :
    allocDsts (resolvePhase n) = [] := by
  simp [resolvePhase, allocDsts, List.filterMap_map]

theorem allocDsts_iterPhase (its d u : Nat) :
    allocDsts (iterPhase its d u) = [] := by
  induction its with
  | zero => rfl
  | succ k ih =>
    rw [iterPhase_succ, allocDsts_append, ih]
    by_cases h : 0 < k <;> simp [iterBody, allocDsts, h]

theorem allocDsts_releasePhase (n : Nat) :
    allocDsts (releasePhase n) = [] := by
  induction n with
  | zero => rfl
  | succ k ih => simp [releasePhase, allocDsts] at ih ⊢; exact ih

theorem emptyRebinds_resolvePhase (n : Nat) :
    emptyRebinds (resolvePhase n) = [] := by
  simp [resolvePhase, emptyRebinds, List.filterMap_map]

theorem emptyRebinds_allocPhase (its : Nat) (hi : Bool) :
    emptyRebinds (allocPhase its hi) = [] := by
  by_cases h : 1 < its ∧ hi = true <;> simp [allocPhase, emptyRebinds, h]

theorem emptyRebinds_iterPhase (its d u : Nat) :
    emptyRebinds (iterPhase its d u) = [] := by
  induction its with
  | zero => rfl
  | succ k ih =>
    rw [iterPhase_succ, emptyRebinds_append, ih]
    by_cases h : 0 < k <;> simp [iterBody, emptyRebinds, h]

theorem emptyRebinds_releasePhase (n : Nat) :
    emptyRebinds (releasePhase n) = (List.range n).reverse := by
  induction n with
  | zero => rfl
  | succ k ih =>
    rw [releasePhase, List.range_succ]
    simp only [emptyRebinds, List.filterMap_cons] at ih ⊢
    simp [ih]

/-- Contribution of a single event to `bindsOn j`. -/
def bindHead (j : Nat) (e : GLEvent) : List TexRef :=
  match e with
  | .bindTex u t => if u = j then [t] else []
  | _ => []

theorem bindsOn_cons (j : Nat) (e : GLEvent) (tr : List GLEvent) :
    bindsOn j (e :: tr) = bindHead j e ++ bindsOn j tr := by
  cases e with
  | bindTex u t =>
    by_cases h : u = j <;> simp [bindsOn, bindHead, List.filterMap_cons, h]
  | allocDst k => simp [bindsOn, bindHead, List.filterMap_cons]
  | drawTo k => simp [bindsOn, bindHead, List.filterMap_cons]
  | releaseShader => simp [bindsOn, bindHead, List.filterMap_cons]

theorem bindsOn_releasePhase_ge (j n : Nat) (hj : n ≤ j) :
    bindsOn j (releasePhase n) = [] := by
  induction n with
  | zero => rfl
  | succ k ih =>
    rw [releasePhase, bindsOn_cons, ih (by omega)]
    have hk : k ≠ j := by omega
    simp [bindHead, hk]

theorem bindsOn_releasePhase_lt (j n : Nat) (hj : j < n) :
    bindsOn j (releasePhase n) = [TexRef.empty] := by
  induction n with
  | zero => omega
  | succ k ih =>
    rw [releasePhase, bindsOn_cons]
    by_cases hk : j = k
    · subst hk
      rw [bindsOn_releasePhase_ge j j le_rfl]
      simp [bindHead]
    · have hjk : j < k := by omega
      have hk' : k ≠ j := fun h => hk h.symm
      rw [ih hjk]
      simp [bindHead, hk']

theorem allocDsts_final : allocDsts [GLEvent.releaseShader] = [] := rfl

theorem drawDests_final : drawDests [GLEvent.releaseShader] = [] := rfl

theorem emptyRebinds_final : emptyRebinds [GLEvent.releaseShader] = [] := rfl

/-! ## Theorems -/

/-- C1: the claim says a second fetch for the same node and bindings is a
cache hit under the key the first call stored, with the compile step run
exactly once.  The code violates this: it looks the cache up under
`node->ShaderID(input_params)` but inserts under `node->id()`, so for any
node whose content shader identity differs from its stable id the second
call misses again — two compiles and two distinct program instances. -/
theorem c1_cache_key_mismatch :
    (getOrCompileShader envBad nodeKeyed sc0).2.compiles = 1 ∧
    (getOrCompileShader envBad nodeKeyed
      (getOrCompileShader envBad nodeKeyed sc0).2).2.compiles = 2 ∧
    (getOrCompileShader envBad nodeKeyed
      (getOrCompileShader envBad nodeKeyed sc0).2).1.sid ≠
      (getOrCompileShader envBad nodeKeyed sc0).1.sid := by
  refine ⟨rfl, rfl, ?_⟩
  decide

/-- C2: the claim says a compile/link failure is surfaced to the caller as
an explicit failure result and the failed program is not cached.  The code
violates this: the boolean results of `addShaderFromSourceCode`/`link` are
ignored, the program is inserted into `shader_cache_` unconditionally, and
`RunNodeAccelerated` (which returns `void` and has no error channel)
proceeds to draw and pushes a normal `kTexture` output.  Evaluated on a
node whose fragment source fails to compile: the cached program has
`linkOk = false` and a texture result is still pushed. -/
theorem c2_failed_shader_cached_not_surfaced :
    (lookupCache (runNodeAccelerated envBad nodeBad sc0 0 1 0 false).state.cache
      "badnode").map GLShader.linkOk = some false ∧
    (runNodeAccelerated envBad nodeBad sc0 0 1 0 false).pushedTex = some 0 := by
  exact ⟨rfl, rfl⟩

/-- C3 counterexample: `Close` does not clear the texture cache, so the
claim that it "clears both caches" fails on a state holding one pooled
texture. -/
theorem c3_counterexample : (Close proxyLive).textureCache ≠ [] := by
  decide

/-- C3 (amended): `Close` clears the shader cache (but leaves the texture
cache untouched), destroys the framebuffer, resets the copy pipeline and
function table, destroys the GPU context, and is idempotent — a second
call on an already-closed proxy changes nothing. -/
theorem c3_close_amended (s : ProxyState) :
    (Close s).shaderCache = [] ∧
    (Close s).bufferCreated = false ∧
    (Close s).copyPipeline = none ∧
    (Close s).functionsSet = false ∧
    (Close s).ctx = none ∧
    (Close s).textureCache = s.textureCache ∧
    Close (Close s) = Close s :=
  ⟨rfl, rfl, rfl, rfl, rfl, rfl, rfl⟩

/-- C7: `TextureToBuffer` called with an absent/null texture returns
immediately: it issues no GPU calls (empty event trace) and leaves the
destination frame, its buffer included, unchanged. -/
theorem c7_null_texture_noop (pixels : Nat → List Nat) (frame : DLFrame)
    (matrix freshId : Nat) :
    textureToBuffer pixels none frame matrix freshId = ([], frame) :=
  rfl

/-- C4: aspect-ratio correction.  For a non-negative sample aspect ratio
`sar`: if `sar > 1` the width becomes `round(width * sar)` with the height
unchanged; if `0 < sar < 1` the height becomes `round(height / sar)` with
the width unchanged; if `sar = 1` or `sar = 0` both are unchanged; and in
all cases neither resulting dimension is below the input dimension. -/
theorem c4_aspect_ratio (w h : Nat) (sar : ℚ) (hsar : 0 ≤ sar) :
    (1 < sar → aspectCorrect w h sar = (round ((w : ℚ) * sar), (h : ℤ))) ∧
    (0 < sar → sar < 1 →
      aspectCorrect w h sar = ((w : ℤ), round ((h : ℚ) / sar))) ∧
    ((sar = 1 ∨ sar = 0) → aspectCorrect w h sar = ((w : ℤ), (h : ℤ))) ∧
    (w : ℤ) ≤ (aspectCorrect w h sar).1 ∧
    (h : ℤ) ≤ (aspectCorrect w h sar).2 := by
  have hwq : (0 : ℚ) ≤ (w : ℚ) := Nat.cast_nonneg w
  have hhq : (0 : ℚ) ≤ (h : ℚ) := Nat.cast_nonneg h
  refine ⟨?_, ?_, ?_, ?_⟩
  · intro hgt
    have h1 : sar ≠ 1 := ne_of_gt hgt
    have h0 : sar ≠ 0 := ne_of_gt (lt_trans one_pos hgt)
    simp [aspectCorrect, h1, h0, hgt]
  · intro hpos hlt
    have h1 : sar ≠ 1 := ne_of_lt hlt
    have h0 : sar ≠ 0 := ne_of_gt hpos
    have hngt : ¬ 1 < sar := not_lt.mpr (le_of_lt hlt)
    simp [aspectCorrect, h1, h0, hngt]
  · rintro (h1 | h0)
    · simp [aspectCorrect, h1]
    · simp [aspectCorrect, h0]
  · by_cases h1 : sar = 1
    · simp [aspectCorrect, h1]
    by_cases h0 : sar = 0
    · simp [aspectCorrect, h0]
    by_cases hgt : 1 < sar
    · have hle : (w : ℚ) ≤ (w : ℚ) * sar :=
        le_mul_of_one_le_right hwq (le_of_lt hgt)
      have hr : (w : ℤ) ≤ round ((w : ℚ) * sar) := by
        calc (w : ℤ) = round ((w : ℚ)) := (round_natCast w).symm
          _ ≤ round ((w : ℚ) * sar) := by
              rw [round_eq, round_eq]
              exact Int.floor_mono (by linarith)
      simp [aspectCorrect, h1, h0, hgt]
      exact hr
    · have hpos : 0 < sar := lt_of_le_of_ne hsar (Ne.symm h0)
      have hlt1 : sar ≤ 1 := not_lt.mp hgt
      have hle : (h : ℚ) ≤ (h : ℚ) / sar := by
        rw [le_div_iff₀ hpos]
        exact mul_le_of_le_one_right hhq hlt1
      have hr : (h : ℤ) ≤ round ((h : ℚ) / sar) := by
        calc (h : ℤ) = round ((h : ℚ)) := (round_natCast h).symm
          _ ≤ round ((h : ℚ) / sar) := by
              rw [round_eq, round_eq]
              exact Int.floor_mono (by linarith)
      simp [aspectCorrect, h1, h0, hgt]
      exact hr

/-- C4 witness: the aspect-ratio theorem evaluated at a 4×3 frame with
sample aspect ratio 3/2. -/
theorem c4_aspect_ratio_witness :
    (0 : ℚ) ≤ 3 / 2 ∧
    ((1 < (3 / 2 : ℚ) →
      aspectCorrect 4 3 (3 / 2) = (round ((4 : ℚ) * (3 / 2)), (3 : ℤ))) ∧
    (0 < (3 / 2 : ℚ) → (3 / 2 : ℚ) < 1 →
      aspectCorrect 4 3 (3 / 2) = ((4 : ℤ), round ((3 : ℚ) / (3 / 2)))) ∧
    (((3 / 2 : ℚ) = 1 ∨ (3 / 2 : ℚ) = 0) →
      aspectCorrect 4 3 (3 / 2) = ((4 : ℤ), (3 : ℤ))) ∧
    (4 : ℤ) ≤ (aspectCorrect 4 3 (3 / 2)).1 ∧
    (3 : ℤ) ≤ (aspectCorrect 4 3 (3 / 2)).2) :=
  ⟨by norm_num, c4_aspect_ratio 4 3 (3 / 2) (by norm_num)⟩

/-- C5: for a node declaring `its > 1` iterations and an iterative
feedback input, the call allocates exactly two destination textures
(`dst 0` and `dst 1`, in that order, and no others), performs exactly
`its` draw calls with iteration `i` drawing into `dst (i % 2)`, every
iteration `i > 0` first rebinds the feedback unit to `dst ((i+1) % 2)` —
the previous iteration's destination — and the final iteration's
destination `(its-1) % 2` is the pushed output. -/
theorem c5_pingpong (n its u : Nat) (h : 1 < its) :
    allocDsts (runTrace n its u true) = [0, 1] ∧
    drawDests (runTrace n its u true) = (List.range its).map (· % 2) ∧
    iterPhase its (allocCount its true) u = pingPongSpecTrace its u ∧
    loopOutput its (allocCount its true) = some ((its - 1) % 2) := by
  have hac : allocCount its true = 2 := by simp [allocCount, h]
  refine ⟨?_, ?_, ?_, ?_⟩
  · simp only [runTrace, allocDsts_append, allocDsts_allocPhase_two its h,
      allocDsts_resolvePhase, allocDsts_iterPhase, allocDsts_releasePhase,
      allocDsts_final, List.append_nil, List.nil_append]
  · simp only [runTrace, drawDests_append, drawDests_allocPhase,
      drawDests_resolvePhase, drawDests_iterPhase, drawDests_releasePhase,
      drawDests_final, hac, List.append_nil, List.nil_append]
  · rw [hac]; rfl
  · obtain ⟨k, rfl⟩ : ∃ k, its = k + 1 := ⟨its - 1, by omega⟩
    rw [hac]
    simp [loopOutput, List.range_succ]

/-- C5 witness: three iterations with a feedback input on unit 0 and one
resolved texture input. -/
theorem c5_pingpong_witness :
    1 < 3 ∧
    (allocDsts (runTrace 1 3 0 true) = [0, 1] ∧
     drawDests (runTrace 1 3 0 true) = (List.range 3).map (· % 2) ∧
     iterPhase 3 (allocCount 3 true) 0 = pingPongSpecTrace 3 0 ∧
     loopOutput 3 (allocCount 3 true) = some ((3 - 1) % 2)) :=
  ⟨by decide, c5_pingpong 1 3 0 (by decide)⟩

/-- C10: for a node declaring `its > 1` iterations but no iterative
feedback input, exactly one destination texture is obtained (no second
allocation ever happens), and every one of the `its` draw calls writes
into that same destination `dst 0`, which is also the pushed output. -/
theorem c10_single_destination (n its u : Nat) (h : 1 < its) :
    allocDsts (runTrace n its u false) = [0] ∧
    drawDests (runTrace n its u false) = List.replicate its 0 ∧
    loopOutput its (allocCount its false) = some 0 := by
  have hac : allocCount its false = 1 := by simp [allocCount]
  refine ⟨?_, ?_, ?_⟩
  · simp only [runTrace, allocDsts_append, allocDsts_allocPhase_one,
      allocDsts_resolvePhase, allocDsts_iterPhase, allocDsts_releasePhase,
      allocDsts_final, List.append_nil, List.nil_append]
  · simp only [runTrace, drawDests_append, drawDests_allocPhase,
      drawDests_resolvePhase, drawDests_iterPhase, drawDests_releasePhase,
      drawDests_final, hac, List.append_nil, List.nil_append]
    simp [Nat.mod_one, List.map_const', List.length_range]
  · obtain ⟨k, rfl⟩ : ∃ k, its = k + 1 := ⟨its - 1, by omega⟩
    rw [hac]
    simp [loopOutput, List.range_succ, Nat.mod_one]

/-- C10 witness: three iterations, no feedback input. -/
theorem c10_single_destination_witness :
    1 < 3 ∧
    (allocDsts (runTrace 0 3 0 false) = [0] ∧
     drawDests (runTrace 0 3 0 false) = List.replicate 3 0 ∧
     loopOutput 3 (allocCount 3 false) = some 0) :=
  ⟨by decide, c10_single_destination 0 3 0 (by decide)⟩

/-- C6: during input resolution the texture units bound are exactly
`0, …, n-1` in order; the units rebound to the empty texture over the
whole call are exactly `n-1, …, 0` — every resolved unit, in descending
order; for each such unit the *last* binding of the call is the empty
texture (no binding leaks into the next call); and the call's final GPU
event is the program release. -/
theorem c6_unit_release (n its u j : Nat) (hasIter : Bool) (hj : j < n) :
    bindUnits (resolvePhase n) = List.range n ∧
    emptyRebinds (runTrace n its u hasIter) = (List.range n).reverse ∧
    lastBind j (runTrace n its u hasIter) = some TexRef.empty ∧
    (runTrace n its u hasIter).getLast? = some GLEvent.releaseShader := by
  refine ⟨?_, ?_, ?_, ?_⟩
  · simp only [bindUnits, resolvePhase, List.filterMap_map]
    exact List.filterMap_some ..
  · simp only [runTrace, emptyRebinds_append, emptyRebinds_allocPhase,
      emptyRebinds_resolvePhase, emptyRebinds_iterPhase,
      emptyRebinds_releasePhase, emptyRebinds_final,
      List.append_nil, List.nil_append]
  · have htail : bindsOn j [GLEvent.releaseShader] = [] := rfl
    rw [lastBind, runTrace, bindsOn_append, bindsOn_append, bindsOn_append,
      bindsOn_append, bindsOn_releasePhase_lt j n hj, htail]
    rw [List.append_assoc, List.append_assoc]
    simp [List.getLast?_append]
  · simp [runTrace, List.getLast?_append]

/-- C6 witness: two resolved texture inputs, two iterations with a
feedback input on unit 0, checked on unit 1. -/
theorem c6_unit_release_witness :
    1 < 2 ∧
    (bindUnits (resolvePhase 2) = List.range 2 ∧
     emptyRebinds (runTrace 2 2 0 true) = (List.range 2).reverse ∧
     lastBind 1 (runTrace 2 2 0 true) = some TexRef.empty ∧
     (runTrace 2 2 0 true).getLast? = some GLEvent.releaseShader) :=
  ⟨by decide, c6_unit_release 2 2 0 1 true (by decide)⟩

/-- C9: on the accurate color path, `FrameToValue` performs — in this
order and entirely before the frame is uploaded to a GPU texture — the
conversion to a float pixel format, alpha disassociation iff the frame
has alpha and is premultiplied, the processor's CPU color transform, and
then alpha reassociation (premultiplied) or association (straight)
whenever the frame has alpha; the upload is the last operation. -/
theorem c9_accurate_order (m : OCIOMethod) (hasAlpha premult : Bool)
    (hm : m = .accurate) :
    frameToValueOps m hasAlpha premult =
      [.convertToFloatFormat hasAlpha] ++
      (if hasAlpha && premult then [.disassociateAlpha] else []) ++
      [.cpuColorTransform] ++
      (if hasAlpha then
        (if premult then [.reassociateAlpha] else [.associateAlpha])
       else []) ++
      [.uploadFrameToTexture] ∧
    (frameToValueOps m hasAlpha premult).getLast? =
      some .uploadFrameToTexture := by
  subst hm
  cases hasAlpha <;> cases premult <;> simp [frameToValueOps]

/-- C9 witness: accurate path for a premultiplied frame with alpha. -/
theorem c9_accurate_order_witness :
    OCIOMethod.accurate = OCIOMethod.accurate ∧
    (frameToValueOps .accurate true true =
      [.convertToFloatFormat true] ++
      (if true && true then [.disassociateAlpha] else []) ++
      [.cpuColorTransform] ++
      (if true then
        (if true then [.reassociateAlpha] else [.associateAlpha])
       else []) ++
      [.uploadFrameToTexture] ∧
    (frameToValueOps .accurate true true).getLast? =
      some .uploadFrameToTexture) :=
  ⟨rfl, c9_accurate_order .accurate true true rfl⟩

/-- C8: in `TextureToBuffer`, when the texture's dimensions differ from
the frame's the texture is first blitted via the default copy program
(applying the matrix) into a freshly allocated texture at the frame's
exact dimensions and that texture is read back; when they match the
source texture is read back directly; in either case exactly one readback
occurs (the mismatch path is not an error). -/
theorem c8_download_resize (pixels : Nat → List Nat) (tex : DLTexture)
    (frame : DLFrame) (matrix freshId : Nat) :
    (frame.width ≠ tex.width ∨ frame.height ≠ tex.height →
      textureToBuffer pixels (some tex) frame matrix freshId =
        ([.viewport frame.width frame.height,
          .allocTexture frame.width frame.height freshId,
          .blitCopyPipeline matrix tex.texId freshId,
          .packRowLength frame.linesizePixels,
          .readPixels freshId frame.width frame.height,
          .packRowLength 0],
         { frame with data := pixels freshId })) ∧
    (frame.width = tex.width → frame.height = tex.height →
      textureToBuffer pixels (some tex) frame matrix freshId =
        ([.viewport frame.width frame.height,
          .packRowLength frame.linesizePixels,
          .readPixels tex.texId frame.width frame.height,
          .packRowLength 0],
         { frame with data := pixels tex.texId })) ∧
    readSrcs (textureToBuffer pixels (some tex) frame matrix freshId).1 =
      [if frame.width ≠ tex.width ∨ frame.height ≠ tex.height
       then freshId else tex.texId] := by
  by_cases hmm : frame.width ≠ tex.width ∨ frame.height ≠ tex.height
  · refine ⟨fun _ => ?_, fun hw hh => ?_, ?_⟩
    · simp [textureToBuffer, hmm]
    · exact absurd (Or.elim hmm (fun c => c hw) (fun c => c hh)) not_false
    · simp [textureToBuffer, hmm, readSrcs]
  · refine ⟨fun c => absurd c hmm, fun _ _ => ?_, ?_⟩
    · simp [textureToBuffer, hmm]
    · simp [textureToBuffer, hmm, readSrcs]

/-- C8 witness: a 2×2 texture (GL id 7) downloaded into a 4×4 frame —
the resize-blit path with fresh texture id 42. -/
theorem c8_download_resize_witness :
    ((4 : Nat) ≠ 2 ∨ (4 : Nat) ≠ 2) ∧
    textureToBuffer (fun i => [i]) (some ⟨7, 2, 2⟩) ⟨4, 4, 4, [9]⟩ 5 42 =
      ([.viewport 4 4, .allocTexture 4 4 42, .blitCopyPipeline 5 7 42,
        .packRowLength 4, .readPixels 42 4 4, .packRowLength 0],
       ⟨4, 4, 4, [42]⟩) :=
  ⟨Or.inl (by decide),
   (c8_download_resize (fun i => [i]) ⟨7, 2, 2⟩ ⟨4, 4, 4, [9]⟩ 5 42).1
     (Or.inl (by decide))⟩

end OpenGLProxy
